import Mathlib

/-!
Formal model of the deployment bot in src/bot/mybot.js.

The program is a webhook-driven deployment agent: a registry push event is
filtered, offered to a human approver over a messaging channel, and on
approval a single-flight container redeploy sequence runs against the
container runtime.  The model below embeds, faithfully to the source:

* the Runtime Client status handling (start/stop/kill/remove/pull/create,
  list and exists), as functions from the HTTP response to an Except value;
* the Deploy Orchestrator (function do_deploy) as a function from the
  decoded payload, the guard flag and an oracle deciding which external
  calls succeed, to the list of performed external actions and the final
  guard value;
* the Event Filter of on_registry_event, with JavaScript exception
  semantics for field access modelled by Except;
* the handlers on_registry_event and on_telegram_event, recording whether
  the request ends in res.end with OK (true) or in a raised error that
  destroys the socket (false);
* the JSON encoding and decoding of the DeployCommand payload, at the
  level of UTF-16 code units, covering the object fragment produced by
  JSON.stringify on a two string field object.
-/

namespace MyBot

/-- HTTP response as observed by the client helpers: numeric status code
and the accumulated body text. -/
structure HttpResp where
  code : Nat
  body : String
deriving DecidableEq

/-- Error raised by a client operation on an unexpected status.  mybot.js
throws an Error whose message carries the numeric code and the body; the
model keeps both fields explicitly. -/
inductive DockerErr where
  | badStatus (code : Nat) (body : String)
deriving DecidableEq

/-- start_container of mybot.js: status 304 means already started and
yields false; a status outside 200..299 (other than 304) raises; a 2xx
status yields true. -/
def start_container (resp : HttpResp) : Except DockerErr Bool :=
  if resp.code = 304 then Except.ok false
  else if 200 ≤ resp.code ∧ resp.code < 300 then Except.ok true
  else Except.error (DockerErr.badStatus resp.code resp.body)

/-- stop_container of mybot.js: status 304 means already stopped and
yields false. -/
def stop_container (resp : HttpResp) : Except DockerErr Bool :=
  if resp.code = 304 then Except.ok false
  else if 200 ≤ resp.code ∧ resp.code < 300 then Except.ok true
  else Except.error (DockerErr.badStatus resp.code resp.body)

/-- kill_container of mybot.js: status 409 means the container is not
running and yields false. -/
def kill_container (resp : HttpResp) : Except DockerErr Bool :=
  if resp.code = 409 then Except.ok false
  else if 200 ≤ resp.code ∧ resp.code < 300 then Except.ok true
  else Except.error (DockerErr.badStatus resp.code resp.body)

/-- remove_container of mybot.js: status 404 means the container is
already removed and yields false. -/
def remove_container (resp : HttpResp) : Except DockerErr Bool :=
  if resp.code = 404 then Except.ok false
  else if 200 ≤ resp.code ∧ resp.code < 300 then Except.ok true
  else Except.error (DockerErr.badStatus resp.code resp.body)

/-- pull_image of mybot.js: no tolerated status; every non 2xx status
raises.  The function returns no value on success. -/
def pull_image (resp : HttpResp) : Except DockerErr Unit :=
  if 200 ≤ resp.code ∧ resp.code < 300 then Except.ok ()
  else Except.error (DockerErr.badStatus resp.code resp.body)

/-- create_container of mybot.js: every non 2xx status raises.  On
success the source returns the Id field parsed from the body; the parse
of the body is elided here (the caller do_deploy ignores the value) and
the raw body is returned instead. -/
def create_container (resp : HttpResp) : Except DockerErr String :=
  if 200 ≤ resp.code ∧ resp.code < 300 then Except.ok resp.body
  else Except.error (DockerErr.badStatus resp.code resp.body)

/-- list_container of mybot.js: every non 2xx status raises.  On success
the source returns the JSON parse of the body; the parse is elided and
the raw body is returned. -/
def list_container (resp : HttpResp) : Except DockerErr String :=
  if 200 ≤ resp.code ∧ resp.code < 300 then Except.ok resp.body
  else Except.error (DockerErr.badStatus resp.code resp.body)

/-- container_exists of mybot.js: every non 2xx status raises.  On
success the source returns whether the JSON parse of the body is a
nonempty array; the parse is elided and the raw body is returned. -/
def container_exists (resp : HttpResp) : Except DockerErr String :=
  if 200 ≤ resp.code ∧ resp.code < 300 then Except.ok resp.body
  else Except.error (DockerErr.badStatus resp.code resp.body)

/-- Claim C8: start_container returns false exactly on status 304
(already started), stop_container exactly on 304 (already stopped),
kill_container exactly on 409 (not running), remove_container exactly on
404 (already removed); and every Runtime Client operation raises, for any
other status outside 200..299, an error carrying the numeric status and
the response body. -/
theorem runtime_status_handling (resp : HttpResp) :
    (start_container resp = Except.ok false ↔ resp.code = 304)
    ∧ (stop_container resp = Except.ok false ↔ resp.code = 304)
    ∧ (kill_container resp = Except.ok false ↔ resp.code = 409)
    ∧ (remove_container resp = Except.ok false ↔ resp.code = 404)
    ∧ (∀ e, start_container resp = Except.error e ↔
        (resp.code ≠ 304 ∧ ¬(200 ≤ resp.code ∧ resp.code < 300)
          ∧ e = DockerErr.badStatus resp.code resp.body))
    ∧ (∀ e, stop_container resp = Except.error e ↔
        (resp.code ≠ 304 ∧ ¬(200 ≤ resp.code ∧ resp.code < 300)
          ∧ e = DockerErr.badStatus resp.code resp.body))
    ∧ (∀ e, kill_container resp = Except.error e ↔
        (resp.code ≠ 409 ∧ ¬(200 ≤ resp.code ∧ resp.code < 300)
          ∧ e = DockerErr.badStatus resp.code resp.body))
    ∧ (∀ e, remove_container resp = Except.error e ↔
        (resp.code ≠ 404 ∧ ¬(200 ≤ resp.code ∧ resp.code < 300)
          ∧ e = DockerErr.badStatus resp.code resp.body))
    ∧ (∀ e, pull_image resp = Except.error e ↔
        (¬(200 ≤ resp.code ∧ resp.code < 300)
          ∧ e = DockerErr.badStatus resp.code resp.body))
    ∧ (∀ e, create_container resp = Except.error e ↔
        (¬(200 ≤ resp.code ∧ resp.code < 300)
          ∧ e = DockerErr.badStatus resp.code resp.body))
    ∧ (∀ e, list_container resp = Except.error e ↔
        (¬(200 ≤ resp.code ∧ resp.code < 300)
          ∧ e = DockerErr.badStatus resp.code resp.body))
    ∧ (∀ e, container_exists resp = Except.error e ↔
        (¬(200 ≤ resp.code ∧ resp.code < 300)
          ∧ e = DockerErr.badStatus resp.code resp.body)) := by
  unfold start_container stop_container kill_container remove_container
    pull_image create_container list_container container_exists
  refine ⟨?_, ?_, ?_, ?_, ?_, ?_, ?_, ?_, ?_, ?_, ?_, ?_⟩ <;>
    try intro e
  all_goals split_ifs <;> simp_all [eq_comm]

/-- JavaScript value of a field as far as the bot inspects one: either
undefined (an absent field) or a string.  Other primitive kinds never
compare equal to the string literals the bot tests against, so they
behave like undefined here. -/
inductive JsVal where
  | undef
  | str (s : String)
deriving DecidableEq

/-- Template-literal rendering of a value, as in a JavaScript backtick
string: undefined renders as the text undefined. -/
def jsToDisplay : JsVal → String
  | JsVal.undef => "undefined"
  | JsVal.str s => s

/-- Environment-sourced configuration consumed by the deploy sequence:
the registry credentials REGISTRY_USER and REGISTRY_PASS. -/
structure Config where
  registry_user : String
  registry_pass : String
deriving DecidableEq

/-- External action performed by the bot, in the order the source awaits
or fires them.  Runtime Client calls carry the arguments the source
passes; sendMsg carries the text and the optional button label with its
callback payload; logLine records console output. -/
inductive Action where
  | sendMsg (text : String) (button : Option (String × String))
  | answerCallback (id : String)
  | pullImage (image : String) (username : String) (password : String)
  | removeContainer (name : String)
  | createContainer (name : String) (image : String) (net : String)
  | startContainer (name : String)
  | logLine (line : String)
deriving DecidableEq

/-- Is the action a console log line (neither a Runtime Client call nor a
Messaging Client call)? -/
def isLog : Action → Bool
  | Action.logLine _ => true
  | _ => false

/-- Is the action the Messaging Client acknowledgment of a callback? -/
def isAck : Action → Bool
  | Action.answerCallback _ => true
  | _ => false

/-- The six awaited steps of the redeploy sequence of do_deploy, for a
given tag rendering, in source order with the arguments the source
passes: the fixed image template, the fixed container name myapp and the
fixed network net0. -/
def deploySteps (cfg : Config) (tag : String) : List Action :=
  [Action.sendMsg ("Deploying: " ++ tag) none,
   Action.pullImage ("registry.demo-docker.kurniadwin.to/myapp:" ++ tag)
     cfg.registry_user cfg.registry_pass,
   Action.removeContainer "myapp",
   Action.createContainer "myapp"
     ("registry.demo-docker.kurniadwin.to/myapp:" ++ tag) "net0",
   Action.startContainer "myapp",
   Action.sendMsg ("Deployed: " ++ tag) none]

/-- Awaited execution of a chain of calls: each call is performed only
after the previous one resolved; a rejected call (stepOk gives false)
raises, so the remaining calls never run.  Returns the actions performed
(a failed attempt was still performed) and whether the chain completed
without a raise. -/
def runSeq (stepOk : Action → Bool) : List Action → List Action × Bool
  | [] => ([], true)
  | a :: rest =>
      if stepOk a then
        let r := runSeq stepOk rest
        (a :: r.1, r.2)
      else ([a], false)

/-- The awaited chain of do_deploy: the six statements of the try block,
in source order, with raise aborting the rest. -/
def runDeploy (cfg : Config) (tag : String) (stepOk : Action → Bool) :
    List Action × Bool :=
  runSeq stepOk (deploySteps cfg tag)

/-- Modelled from the spec: execute steps in strict order, each step
awaited before the next starts, the first failing step aborting all the
remaining ones (the failing attempt itself is still performed). -/
def specRedeployTrace (stepOk : Action → Bool) : List Action → List Action
  | [] => []
  | a :: rest =>
      if stepOk a then a :: specRedeployTrace stepOk rest else [a]

/-- The trace of an awaited chain is the spec: the steps in order up to
and including the first failing one. -/
theorem runSeq_fst (stepOk : Action → Bool) (l : List Action) :
    (runSeq stepOk l).1 = specRedeployTrace stepOk l := by
  induction l with
  | nil => rfl
  | cons a rest ih =>
      by_cases h : stepOk a <;> simp [runSeq, specRedeployTrace, h, ih]

/-- Decoded callback payload as do_deploy sees it after JSON.parse with
fallback to the empty object: the command and tag fields. -/
structure DecodedPayload where
  command : JsVal
  tag : JsVal
deriving DecidableEq

/-- Body of do_deploy of mybot.js after the JSON.parse of the payload
(see decodePayload): on a command other than deploy it returns at once;
otherwise, inside setImmediate, it logs, checks the single-flight guard
on_progres, and either logs a warning leaving the guard as it is, or sets
the guard, runs the awaited chain and clears the guard — on the success
path by the final assignment, on any raise by the catch handler, so the
guard is false either way. -/
def do_deploy_core (cfg : Config) (p : DecodedPayload)
    (stepOk : Action → Bool) (on_progres : Bool) : List Action × Bool :=
  if p.command ≠ JsVal.str "deploy" then ([], on_progres)
  else
    let tag := jsToDisplay p.tag
    let head := Action.logLine ("got telegram event: deploy: " ++ tag)
    if on_progres then
      ([head, Action.logLine "warning: already on_progress, ignoring"],
       on_progres)
    else
      let r := runDeploy cfg tag stepOk
      (head :: r.1, false)

/-- Claim C1: a deploy request handed to the orchestrator while the guard
is true is discarded with a warning: the guard stays true, and the call
performs nothing but console logs — no Runtime Client call, no Messaging
Client send — and nothing is queued (the call returns only the two log
lines, or nothing at all when the command is not deploy). -/
theorem single_flight_guard (cfg : Config) (p : DecodedPayload)
    (stepOk : Action → Bool) :
    (do_deploy_core cfg p stepOk true).2 = true
    ∧ (do_deploy_core cfg p stepOk true).1.all isLog = true
    ∧ ((do_deploy_core cfg p stepOk true).1 = []
        ∨ (do_deploy_core cfg p stepOk true).1 =
            [Action.logLine
               ("got telegram event: deploy: " ++ jsToDisplay p.tag),
             Action.logLine "warning: already on_progress, ignoring"]) := by
  by_cases h : p.command = JsVal.str "deploy" <;>
    simp [do_deploy_core, h, isLog]

/-- Claim C2: a deploy sequence started with the guard free ends with the
guard false again, whatever the outcome of each step; and against the
resulting guard value any further deploy request is accepted: its trace
is the log line followed by the awaited chain, not the warning. -/
theorem guard_released (cfg : Config) (t : JsVal) (stepOk : Action → Bool) :
    (do_deploy_core cfg ⟨JsVal.str "deploy", t⟩ stepOk false).2 = false
    ∧ ∀ (cfg2 : Config) (t2 : JsVal) (stepOk2 : Action → Bool),
        (do_deploy_core cfg2 ⟨JsVal.str "deploy", t2⟩ stepOk2
            (do_deploy_core cfg ⟨JsVal.str "deploy", t⟩ stepOk false).2).1 =
          Action.logLine ("got telegram event: deploy: " ++ jsToDisplay t2)
            :: (runDeploy cfg2 (jsToDisplay t2) stepOk2).1 := by
  refine ⟨by simp [do_deploy_core], ?_⟩
  intro cfg2 t2 stepOk2
  simp [do_deploy_core]

/-- Claim C3: an accepted deploy for tag value t performs, in strict
order, the log line and then the six steps send Deploying, pull the
templated image with the configured credentials, force remove the
container myapp, create myapp from that image on net0, start myapp, send
Deployed — each step awaited before the next, the first failure aborting
all remaining steps — and releases the guard. -/
theorem redeploy_sequence (cfg : Config) (t : JsVal)
    (stepOk : Action → Bool) :
    do_deploy_core cfg ⟨JsVal.str "deploy", t⟩ stepOk false =
      (Action.logLine ("got telegram event: deploy: " ++ jsToDisplay t)
         :: specRedeployTrace stepOk
              [Action.sendMsg ("Deploying: " ++ jsToDisplay t) none,
               Action.pullImage
                 ("registry.demo-docker.kurniadwin.to/myapp:"
                    ++ jsToDisplay t)
                 cfg.registry_user cfg.registry_pass,
               Action.removeContainer "myapp",
               Action.createContainer "myapp"
                 ("registry.demo-docker.kurniadwin.to/myapp:"
                    ++ jsToDisplay t) "net0",
               Action.startContainer "myapp",
               Action.sendMsg ("Deployed: " ++ jsToDisplay t) none],
       false) := by
  simp only [do_deploy_core, runDeploy]
  rw [runSeq_fst]
  simp [deploySteps]

/-- Claim C10: a decoded payload whose command is deploy but whose tag
field is absent still starts the deploy sequence: the tag used is the
undefined value and the image reference handed to pull and create is the
fixed template ending in the text undefined; no validation rejects the
missing tag. -/
theorem deploy_missing_tag (cfg : Config) (stepOk : Action → Bool) :
    do_deploy_core cfg ⟨JsVal.str "deploy", JsVal.undef⟩ stepOk false =
      (Action.logLine "got telegram event: deploy: undefined"
         :: specRedeployTrace stepOk
              [Action.sendMsg "Deploying: undefined" none,
               Action.pullImage "registry.demo-docker.kurniadwin.to/myapp:undefined"
                 cfg.registry_user cfg.registry_pass,
               Action.removeContainer "myapp",
               Action.createContainer "myapp"
                 "registry.demo-docker.kurniadwin.to/myapp:undefined" "net0",
               Action.startContainer "myapp",
               Action.sendMsg "Deployed: undefined" none],
       false) := by
  simp only [do_deploy_core, runDeploy]
  rw [runSeq_fst]
  simp [deploySteps, jsToDisplay]

/-- Target object of a registry event, as far as the filter of
on_registry_event reads it: the mediaType, repository and tag fields. -/
structure EvTarget where
  mediaType : JsVal
  repository : JsVal
  tag : JsVal
deriving DecidableEq

/-- One element of the events array of a registry payload.  An obj event
carries an action field and possibly a target object; target none models
an absent (undefined) target, on which any property access throws.  A
nonobj element models a value that is itself not an object, on which
already the access of action throws. -/
inductive RegEvent where
  | obj (action : JsVal) (target : Option EvTarget)
  | nonobj
deriving DecidableEq

/-- The expected manifest media type the filter compares against. -/
def manifestMediaType : String :=
  "application/vnd.docker.distribution.manifest.v2+json"

/-- The filter predicate of on_registry_event, with JavaScript exception
semantics: the conjunction short-circuits, so the target object is only
touched once the action compared equal to push; accessing a property of
an absent target, or any property of a non object element, throws, which
the model reports as an error value. -/
def eventPredRaw : RegEvent → Except Unit Bool
  | RegEvent.nonobj => Except.error ()
  | RegEvent.obj action target =>
      if action ≠ JsVal.str "push" then Except.ok false
      else
        match target with
        | none => Except.error ()
        | some t =>
            Except.ok ((t.mediaType == JsVal.str manifestMediaType)
              && (t.repository == JsVal.str "myapp"))

/-- The predicate as the try catch of the source evaluates it: a thrown
exception counts as not valid. -/
def eventPred (ev : RegEvent) : Bool :=
  match eventPredRaw ev with
  | Except.ok b => b
  | Except.error _ => false

/-- The Event Filter of on_registry_event: Array.prototype.filter with
the fails-safe predicate. -/
def eventFilter (evs : List RegEvent) : List RegEvent :=
  evs.filter eventPred

/-- Modelled from the spec: an event is a deploy candidate iff it is a
well-formed object whose action is push, whose target mediaType is the
expected manifest media type and whose target repository is the
configured application name. -/
def specValidEvent : RegEvent → Bool
  | RegEvent.obj action (some t) =>
      (action == JsVal.str "push")
        && (t.mediaType == JsVal.str manifestMediaType)
        && (t.repository == JsVal.str "myapp")
  | _ => false

/-- The fails-safe predicate agrees with the clean validity predicate on
every single event. -/
theorem eventPred_eq_specValidEvent (ev : RegEvent) :
    eventPred ev = specValidEvent ev := by
  cases ev with
  | nonobj => rfl
  | obj action target =>
      cases target with
      | none =>
          by_cases h : action = JsVal.str "push" <;>
            simp [eventPred, eventPredRaw, specValidEvent, h]
      | some t =>
          by_cases h : action = JsVal.str "push" <;>
            simp [eventPred, eventPredRaw, specValidEvent, h]

/-- Claim C5: the filter output is exactly the ordered subsequence of
input events that satisfy action push, expected manifest media type and
repository myapp; a malformed event (any exception during field access)
is dropped without disturbing the others, and the output is a
subsequence of the input, so its order follows the input order. -/
theorem event_filter_correct (evs : List RegEvent) :
    eventFilter evs = evs.filter specValidEvent
      ∧ List.Sublist (eventFilter evs) evs := by
  constructor
  · exact List.filter_congr (fun a _ => eventPred_eq_specValidEvent a)
  · exact List.filter_sublist evs

/-- JavaScript strings are modelled as sequences of UTF-16 code units,
the unit of iteration of both JSON.stringify and JSON.parse.  These are
the code units of the text deploy. -/
def deployUnits : List Nat := [100, 101, 112, 108, 111, 121]

/-- Hex digit character for a value below 16, lowercase as emitted by
the \u escapes of JSON.stringify. -/
def hexDigit (d : Nat) : Nat :=
  if d < 10 then 48 + d else 87 + d

/-- The four hex digit characters of a code unit below 65536. -/
def hex4 (c : Nat) : List Nat :=
  [hexDigit (c / 4096 % 16), hexDigit (c / 256 % 16),
   hexDigit (c / 16 % 16), hexDigit (c % 16)]

/-- A backslash u escape sequence for one code unit. -/
def uescape (c : Nat) : List Nat :=
  92 :: 117 :: hex4 c

/-- QuoteJSONString escaping of a single code unit that is not a leading
surrogate: quote and backslash get a backslash escape, the five control
characters with short escapes get those, any other code unit below 32
and any unpaired trailing surrogate get a \u escape, and everything else
is emitted raw. -/
def escChar (c : Nat) : List Nat :=
  if c = 34 then [92, 34]
  else if c = 92 then [92, 92]
  else if c = 8 then [92, 98]
  else if c = 9 then [92, 116]
  else if c = 10 then [92, 110]
  else if c = 12 then [92, 102]
  else if c = 13 then [92, 114]
  else if c < 32 then uescape c
  else if 56320 ≤ c ∧ c < 57344 then uescape c
  else [c]

/-- Is the code unit a leading surrogate? -/
def isLead (c : Nat) : Bool := 55296 ≤ c && c < 56320

/-- Is the code unit a trailing surrogate? -/
def isTrail (c : Nat) : Bool := 56320 ≤ c && c < 57344

/-- The body escaping performed by JSON.stringify on a string (ES2019
well-formed QuoteJSONString): the string is walked by code points, a
surrogate pair is emitted raw, an unpaired surrogate is \u escaped, and
every other unit is escaped by escChar. -/
def escapeUnits : List Nat → List Nat
  | [] => []
  | [c] => if isLead c then uescape c else escChar c
  | c :: c2 :: rest =>
      if isLead c then
        if isTrail c2 then c :: c2 :: escapeUnits rest
        else uescape c ++ escapeUnits (c2 :: rest)
      else escChar c ++ escapeUnits (c2 :: rest)

/-- Numeric value of a hex digit character, both cases accepted, as
JSON.parse reads the four digits of a \u escape. -/
def hexVal (c : Nat) : Option Nat :=
  if 48 ≤ c ∧ c ≤ 57 then some (c - 48)
  else if 97 ≤ c ∧ c ≤ 102 then some (c - 87)
  else if 65 ≤ c ∧ c ≤ 70 then some (c - 55)
  else none

/-- Prepend a code unit to the string part of a parse result. -/
def pcons (c : Nat) : Option (List Nat × List Nat) →
    Option (List Nat × List Nat)
  | none => none
  | some (s, r) => some (c :: s, r)

/-- JSON.parse on the body of a string literal, positioned right after
the opening quote: returns the decoded code units and the input
remaining after the closing quote, or none on a syntax error.  Raw code
units below 32 are illegal, the backslash escapes are the seven short
ones plus \u with four hex digits, and every other unit stands for
itself. -/
def parseStringBody : List Nat → Option (List Nat × List Nat)
  | [] => none
  | c :: rest =>
      if c = 34 then some ([], rest)
      else if c = 92 then
        match rest with
        | [] => none
        | e :: rest2 =>
            if e = 34 ∨ e = 92 ∨ e = 47 then pcons e (parseStringBody rest2)
            else if e = 98 then pcons 8 (parseStringBody rest2)
            else if e = 116 then pcons 9 (parseStringBody rest2)
            else if e = 110 then pcons 10 (parseStringBody rest2)
            else if e = 102 then pcons 12 (parseStringBody rest2)
            else if e = 114 then pcons 13 (parseStringBody rest2)
            else if e = 117 then
              match rest2 with
              | h1 :: h2 :: h3 :: h4 :: rest3 =>
                  match hexVal h1, hexVal h2, hexVal h3, hexVal h4 with
                  | some v1, some v2, some v3, some v4 =>
                      pcons (4096 * v1 + 256 * v2 + 16 * v3 + v4)
                        (parseStringBody rest3)
                  | _, _, _, _ => none
              | _ => none
            else none
      else if c < 32 then none
      else pcons c (parseStringBody rest)

/-- The code units of the literal text between the opening brace and the
opening quote of the command value: a left brace, quote, command, quote,
colon, quote. -/
def objHead : List Nat :=
  [123, 34, 99, 111, 109, 109, 97, 110, 100, 34, 58, 34]

/-- The code units of the literal text between the command value and the
opening quote of the tag value: comma, quote, tag, quote, colon,
quote. -/
def objMid : List Nat := [44, 34, 116, 97, 103, 34, 58, 34]

/-- JSON.stringify of the object with command deploy and the given tag,
as built at notification time by on_registry_event. -/
def encodeDeployCommand (tag : List Nat) : List Nat :=
  objHead ++ escapeUnits deployUnits ++ [34]
    ++ objMid ++ escapeUnits tag ++ [34, 125]

/-- The decoded DeployCommand object: the command and tag values, as
code unit strings. -/
structure DeployPayloadU where
  command : List Nat
  tag : List Nat
deriving DecidableEq

/-- Consume an expected literal head from the input. -/
def expectUnits : List Nat → List Nat → Option (List Nat)
  | [], l => some l
  | _ :: _, [] => none
  | p :: ps, c :: cs => if c = p then expectUnits ps cs else none

/-- JSON.parse of a DeployCommand payload, restricted to the object
fragment JSON.stringify produces for it: an object literal, without
whitespace, holding exactly a command string field followed by a tag
string field.  Any other input yields none (in do_deploy the fallback is
then the empty object). -/
def parseDeployPayload (l : List Nat) : Option DeployPayloadU := do
  let r1 ← expectUnits objHead l
  let (cmd, r2) ← parseStringBody r1
  let r3 ← expectUnits objMid r2
  let (tag, r4) ← parseStringBody r3
  let r5 ← expectUnits [125] r4
  if r5 = [] then some ⟨cmd, tag⟩ else none

/-- Code units of a Lean string, modelling the UTF-16 units of the
JavaScript string for the basic plane characters the program itself
generates. -/
def strToUnits (s : String) : List Nat := s.data.map Char.toNat

/-- Lean string from code units (surrogate or out of range units map to
the default character). -/
def unitsToStr (l : List Nat) : String := String.mk (l.map Char.ofNat)

/-- Reading back an emitted hex digit recovers its value. -/
theorem hexVal_hexDigit (d : Nat) (h : d < 16) : hexVal (hexDigit d) = some d := by
  unfold hexVal hexDigit
  split_ifs <;> simp_all <;> omega

/-- Parsing a \u escape recovers the escaped code unit. -/
theorem parse_uescape (c : Nat) (h : c < 65536) (l : List Nat) :
    parseStringBody (uescape c ++ l) = pcons c (parseStringBody l) := by
  have h1 := hexVal_hexDigit (c / 4096 % 16) (Nat.mod_lt _ (by norm_num))
  have h2 := hexVal_hexDigit (c / 256 % 16) (Nat.mod_lt _ (by norm_num))
  have h3 := hexVal_hexDigit (c / 16 % 16) (Nat.mod_lt _ (by norm_num))
  have h4 := hexVal_hexDigit (c % 16) (Nat.mod_lt _ (by norm_num))
  have harith : 4096 * (c / 4096 % 16) + 256 * (c / 256 % 16)
      + 16 * (c / 16 % 16) + c % 16 = c := by omega
  simp [uescape, hex4, parseStringBody, h1, h2, h3, h4, harith]

/-- A closing quote ends the string body at once. -/
theorem parse_close (k : List Nat) :
    parseStringBody (34 :: k) = some ([], k) := by
  rw [parseStringBody.eq_def]; simp

/-- Parsing a raw (unescaped) code unit keeps it as itself. -/
theorem parse_raw (c : Nat) (h1 : c ≠ 34) (h2 : c ≠ 92) (h3 : ¬ c < 32)
    (l : List Nat) :
    parseStringBody (c :: l) = pcons c (parseStringBody l) := by
  rw [parseStringBody.eq_def]
  simp [h1, h2, h3]

/-- Parsing what escChar emitted recovers the original code unit. -/
theorem parse_escChar (c : Nat) (l : List Nat) :
    parseStringBody (escChar c ++ l) = pcons c (parseStringBody l) := by
  unfold escChar
  split_ifs with h1 h2 h3 h4 h5 h6 h7 h8 h9
  · subst h1; rw [List.cons_append, List.cons_append, List.nil_append,
      parseStringBody.eq_def]; simp
  · subst h2; rw [List.cons_append, List.cons_append, List.nil_append,
      parseStringBody.eq_def]; simp
  · subst h3; rw [List.cons_append, List.cons_append, List.nil_append,
      parseStringBody.eq_def]; simp
  · subst h4; rw [List.cons_append, List.cons_append, List.nil_append,
      parseStringBody.eq_def]; simp
  · subst h5; rw [List.cons_append, List.cons_append, List.nil_append,
      parseStringBody.eq_def]; simp
  · subst h6; rw [List.cons_append, List.cons_append, List.nil_append,
      parseStringBody.eq_def]; simp
  · subst h7; rw [List.cons_append, List.cons_append, List.nil_append,
      parseStringBody.eq_def]; simp
  · exact parse_uescape c (by omega) l
  · exact parse_uescape c (by omega) l
  · exact parse_raw c h1 h2 h8 l

/-- Bounded form of the string round trip: parsing the escaped body of a
string of length at most n, followed by a closing quote and a rest,
recovers the string and the rest. -/
theorem parse_escapeUnits_aux (n : Nat) : ∀ (s k : List Nat), s.length ≤ n →
    parseStringBody (escapeUnits s ++ 34 :: k) = some (s, k) := by
  induction n with
  | zero =>
      intro s k h
      have hs : s = [] := by
        cases s with
        | nil => rfl
        | cons a t => simp at h
      subst hs
      simp [escapeUnits, parse_close]
  | succ n ih =>
      intro s k h
      match s with
      | [] => simp [escapeUnits, parse_close]
      | [c] =>
          by_cases hc : isLead c
          · have hlt : c < 65536 := by
              simp [isLead] at hc; omega
            simp only [escapeUnits, hc, if_pos, List.nil_append]
            rw [parse_uescape c hlt]
            simp [parse_close, pcons]
          · simp only [escapeUnits, hc, if_neg, Bool.false_eq_true,
              not_false_iff]
            rw [parse_escChar c]
            simp [parse_close, pcons]
      | c :: c2 :: rest =>
          by_cases hL : isLead c
          · by_cases hT : isTrail c2
            · have hcc : c ≠ 34 ∧ c ≠ 92 ∧ ¬ c < 32 := by
                simp [isLead] at hL; omega
              have hcc2 : c2 ≠ 34 ∧ c2 ≠ 92 ∧ ¬ c2 < 32 := by
                simp [isTrail] at hT; omega
              have hrest : rest.length ≤ n := by
                simp at h; omega
              simp only [escapeUnits, hL, hT, if_pos, List.cons_append]
              rw [parse_raw c hcc.1 hcc.2.1 hcc.2.2,
                parse_raw c2 hcc2.1 hcc2.2.1 hcc2.2.2, ih rest k hrest]
              rfl
            · have hlt : c < 65536 := by
                simp [isLead] at hL; omega
              have hrest : (c2 :: rest).length ≤ n := by
                simp at h ⊢; omega
              simp only [escapeUnits, hL, hT, if_pos, if_neg,
                Bool.false_eq_true, not_false_iff, List.append_assoc]
              rw [parse_uescape c hlt, ih (c2 :: rest) k hrest]
              rfl
          · have hrest : (c2 :: rest).length ≤ n := by
              simp at h ⊢; omega
            simp only [escapeUnits, hL, if_neg, Bool.false_eq_true,
              not_false_iff, List.append_assoc]
            rw [parse_escChar c, ih (c2 :: rest) k hrest]
            rfl

/-- String round trip: parsing the escaped body of any string, followed
by the closing quote and any rest, recovers exactly the string. -/
theorem parse_escapeUnits (s k : List Nat) :
    parseStringBody (escapeUnits s ++ 34 :: k) = some (s, k) :=
  parse_escapeUnits_aux s.length s k le_rfl

/-- Consuming a literal head succeeds exactly on that head. -/
theorem expectUnits_append (p l : List Nat) :
    expectUnits p (p ++ l) = some l := by
  induction p with
  | nil => rfl
  | cons a ps ih => simp [expectUnits, ih]

/-- Claim C4: decoding the encoded DeployCommand payload produced for
any tag T — empty, unicode, separators, unpaired surrogates included —
yields a command whose kind is deploy and whose tag is exactly T. -/
theorem deploy_command_roundtrip (tag : List Nat) :
    parseDeployPayload (encodeDeployCommand tag) =
      some ⟨deployUnits, tag⟩ := by
  simp [parseDeployPayload, encodeDeployCommand, List.append_assoc,
    expectUnits_append, parse_escapeUnits, expectUnits]

/-- Code units of the text null. -/
def nullUnits : List Nat := [110, 117, 108, 108]

/-- JSON whitespace: space, tab, line feed, carriage return. -/
def jsonWs (c : Nat) : Bool := c = 32 || c = 9 || c = 10 || c = 13

/-- Strip leading and trailing JSON whitespace. -/
def trimWs (l : List Nat) : List Nat :=
  ((l.dropWhile jsonWs).reverse.dropWhile jsonWs).reverse

/-- Does JSON.parse yield the JSON null value on this input?  Exactly
when the text is the null literal surrounded by JSON whitespace.  On
such a payload JSON.parse succeeds inside the try of do_deploy, and the
command access on the next line — outside the try — throws a TypeError
on null. -/
def isNullPayload (s : String) : Bool := trimWs (strToUnits s) == nullUnits

/-- JSON.parse of the callback data with fallback to the empty object,
as at the top of do_deploy, for inputs that do not parse to JSON null
(those are handled in do_deploy before this).  The parse model covers
the object fragment JSON.stringify emits for the DeployCommand; any
other input falls back to the empty object, leaving both fields
undefined. -/
def decodePayload (s : String) : DecodedPayload :=
  match parseDeployPayload (strToUnits s) with
  | some pl => ⟨JsVal.str (unitsToStr pl.command), JsVal.str (unitsToStr pl.tag)⟩
  | none => ⟨JsVal.undef, JsVal.undef⟩

/-- do_deploy of mybot.js on the raw string payload.  JSON.parse inside
the try yields: on a parse failure, the caught fallback empty object; on
the null literal, the JSON null value, whose command access on the next
line sits outside the try and throws synchronously out of do_deploy
before setImmediate is ever reached (result none); on anything else, the
decoded object handed to the orchestrator core. -/
def do_deploy (cfg : Config) (payload : String) (stepOk : Action → Bool)
    (on_progres : Bool) : Option (List Action × Bool) :=
  if isNullPayload payload then none
  else some (do_deploy_core cfg (decodePayload payload) stepOk on_progres)

/-- The chat object of the message of a callback query, as far as the
gate reads it. -/
structure CbChat where
  username : JsVal
deriving DecidableEq

/-- The message object of a callback query; chat none models an absent
chat, whose username access throws. -/
structure CbMessage where
  chat : Option CbChat
deriving DecidableEq

/-- A callback_query object: its id, its data string, and possibly its
message object (none models an absent message, whose chat access
throws). -/
structure CallbackQuery where
  id : JsVal
  data : JsVal
  message : Option CbMessage
deriving DecidableEq

/-- Inbound payload of the telegram webhook, after the guarded
JSON.parse of the body: a parse failure (caught, so data stays null), a
parsed body without a truthy callback_query, or a callback_query. -/
inductive TgPayload where
  | parseFail
  | noCallback
  | withCallback (cb : CallbackQuery)
deriving DecidableEq

/-- Result of one inbound request: the external actions performed, and
whether the handler reached res.end with OK (true) or raised, in which
case the top level catch destroys the socket instead (false); plus the
resulting guard flag. -/
structure TgResult where
  trace : List Action
  ok200 : Bool
  guard : Bool
deriving DecidableEq

/-- on_telegram_event of mybot.js: a missing or unparsable
callback_query is a no-op ending in OK.  A present callback is first
acknowledged (ackOk false models a rejected acknowledgment request,
which raises out of the handler); then the message chat username is
read — an absent message or chat throws — and compared against the
fixed approver kurnia_d_win: a mismatch only logs; a match hands
data.data to do_deploy.  do_deploy is called synchronously and not
awaited: its deferred work is behind setImmediate with its own catch, so
it cannot fail the handler — but a data payload parsing to JSON null
makes the command access throw synchronously out of do_deploy, before
setImmediate, and that raise does escape the handler (no OK, socket
destroyed, guard untouched). -/
def on_telegram_event (cfg : Config) (pl : TgPayload) (ackOk : Bool)
    (stepOk : Action → Bool) (guard : Bool) : TgResult :=
  match pl with
  | TgPayload.parseFail => ⟨[], true, guard⟩
  | TgPayload.noCallback => ⟨[], true, guard⟩
  | TgPayload.withCallback cb =>
      let ack := Action.answerCallback (jsToDisplay cb.id)
      if !ackOk then ⟨[ack], false, guard⟩
      else
        match cb.message with
        | none => ⟨[ack], false, guard⟩
        | some m =>
            match m.chat with
            | none => ⟨[ack], false, guard⟩
            | some chat =>
                if chat.username ≠ JsVal.str "kurnia_d_win" then
                  ⟨[ack, Action.logLine "got telegram event: but with wrong sender"],
                   true, guard⟩
                else
                  match do_deploy cfg (jsToDisplay cb.data) stepOk guard with
                  | none => ⟨[ack], false, guard⟩
                  | some dep => ⟨ack :: dep.1, true, dep.2⟩

/-- Tag value of a filtered registry event (its target is present by
validity; the fallback is never reached on filtered events). -/
def evTagVal : RegEvent → JsVal
  | RegEvent.obj _ (some t) => t.tag
  | _ => JsVal.undef

/-- JSON.stringify of the DeployCommand object for a tag value: a string
tag is encoded as usual; an undefined tag field is omitted entirely by
JSON.stringify, leaving the object with only its command field. -/
def callbackPayloadUnits : JsVal → List Nat
  | JsVal.str t => encodeDeployCommand (strToUnits t)
  | JsVal.undef => objHead ++ escapeUnits deployUnits ++ [34, 125]

/-- The two effects fired per valid registry event: the console log and
the notification message carrying the Deploy button whose callback
payload encodes the DeployCommand.  The send is fire and forget — its
failure is caught and only logged — so it cannot raise out of the
handler. -/
def registryNotification (ev : RegEvent) : List Action :=
  [Action.logLine ("got registry event: pushed: " ++ jsToDisplay (evTagVal ev)),
   Action.sendMsg ("New image pushed: " ++ jsToDisplay (evTagVal ev))
     (some ("Deploy", unitsToStr (callbackPayloadUnits (evTagVal ev))))]

/-- Inbound payload of the registry webhook: either a body whose
JSON.parse fails or lacks an events array — on_registry_event has no
try around the parse, so that raises out of the handler — or a list of
events. -/
inductive RegPayload where
  | malformed
  | events (evs : List RegEvent)
deriving DecidableEq

/-- Result of one registry request: actions fired and whether the
handler reached res.end with OK. -/
structure RegResult where
  trace : List Action
  ok200 : Bool
deriving DecidableEq

/-- on_registry_event of mybot.js: parse the body, filter the events,
fire a notification per valid event, answer OK.  A malformed body (parse
failure or missing events array) raises before any effect, so the top
level catch destroys the socket and no OK is sent. -/
def on_registry_event : RegPayload → RegResult
  | RegPayload.malformed => ⟨[], false⟩
  | RegPayload.events evs =>
      ⟨(eventFilter evs).map registryNotification |>.flatten, true⟩

/-- An awaited chain of acknowledgment-free steps performs no
acknowledgment, whatever the step outcomes. -/
theorem runSeq_countP_ack (stepOk : Action → Bool) :
    ∀ l : List Action, l.all (fun a => !isAck a) = true →
      (runSeq stepOk l).1.countP isAck = 0 := by
  intro l
  induction l with
  | nil => intro _; rfl
  | cons a rest ih =>
      intro h
      simp only [List.all_cons, Bool.and_eq_true, Bool.not_eq_true'] at h
      by_cases hs : stepOk a <;>
        simp [runSeq, hs, List.countP_cons, h.1, ih h.2]

/-- The orchestrator never acknowledges a callback: its trace is free of
answerCallback actions on every path. -/
theorem do_deploy_core_countP_ack (cfg : Config) (p : DecodedPayload)
    (stepOk : Action → Bool) (g : Bool) :
    (do_deploy_core cfg p stepOk g).1.countP isAck = 0 := by
  unfold do_deploy_core
  by_cases h : p.command = JsVal.str "deploy" <;>
    by_cases hg : g <;>
      simp [h, hg, isAck, List.countP_cons, runDeploy,
        runSeq_countP_ack stepOk (deploySteps cfg (jsToDisplay p.tag))
          (by simp [deploySteps, isAck])]

/-- Claim C6: a payload carrying a callback is acknowledged exactly once
and the acknowledgment is the first external action of the handler — so
it precedes the sender identity check, whether the acknowledgment
succeeds, the sender is authorized, the command decodes, or not — and a
payload without a callback is never acknowledged. -/
theorem ack_exactly_once_first (cfg : Config) (cb : CallbackQuery)
    (ackOk : Bool) (stepOk : Action → Bool) (g : Bool) :
    ((on_telegram_event cfg (TgPayload.withCallback cb) ackOk stepOk g).trace.countP
        isAck = 1
      ∧ (on_telegram_event cfg (TgPayload.withCallback cb) ackOk stepOk g).trace.head? =
          some (Action.answerCallback (jsToDisplay cb.id)))
    ∧ (on_telegram_event cfg TgPayload.parseFail ackOk stepOk g).trace.countP
        isAck = 0
    ∧ (on_telegram_event cfg TgPayload.noCallback ackOk stepOk g).trace.countP
        isAck = 0 := by
  refine ⟨?_, rfl, rfl⟩
  rcases cb with ⟨i, d, m⟩
  cases ackOk
  · simp [on_telegram_event, isAck]
  · rcases m with _ | ⟨_ | ⟨c⟩⟩
    · simp [on_telegram_event, isAck]
    · simp [on_telegram_event, isAck]
    · by_cases hu : c.username = JsVal.str "kurnia_d_win"
      · by_cases hn : isNullPayload (jsToDisplay d) = true
        · simp [on_telegram_event, do_deploy, isAck, hu, hn]
        · simp [on_telegram_event, do_deploy, isAck, hu, hn,
            List.countP_cons, do_deploy_core_countP_ack]
      · simp [on_telegram_event, isAck, hu]

/-- Claim C7: a callback whose sender username differs from the fixed
approver kurnia_d_win stops right after the acknowledgment: the handler
performs only the acknowledgment and (when the acknowledgment succeeds)
the wrong-sender log line — no Runtime Client call, no deploy — and the
guard is untouched. -/
theorem unauthorized_no_deploy (cfg : Config) (i d u : JsVal)
    (ackOk : Bool) (stepOk : Action → Bool) (g : Bool)
    (h : u ≠ JsVal.str "kurnia_d_win") :
    on_telegram_event cfg
        (TgPayload.withCallback ⟨i, d, some ⟨some ⟨u⟩⟩⟩) ackOk stepOk g =
      if ackOk then
        ⟨[Action.answerCallback (jsToDisplay i),
          Action.logLine "got telegram event: but with wrong sender"],
         true, g⟩
      else ⟨[Action.answerCallback (jsToDisplay i)], false, g⟩ := by
  cases ackOk <;> simp [on_telegram_event, h]

/-- Witness for claim C7: a concrete unauthorized callback yields only
the acknowledgment and the log line. -/
theorem unauthorized_no_deploy_witness :
    on_telegram_event ⟨"user", "pass"⟩
        (TgPayload.withCallback
          ⟨JsVal.str "cb1", JsVal.str "x", some ⟨some ⟨JsVal.undef⟩⟩⟩)
        true (fun _ => true) false =
      ⟨[Action.answerCallback "cb1",
        Action.logLine "got telegram event: but with wrong sender"],
       true, false⟩ :=
  unauthorized_no_deploy ⟨"user", "pass"⟩ (JsVal.str "cb1") (JsVal.str "x")
    JsVal.undef true (fun _ => true) false (by decide)

/-- Claim C9 counterexample: a body whose JSON.parse fails (or which has
no events array) on the registry endpoint does not get the 200 OK
response the claim promises — on_registry_event has no try around the
parse, the raise reaches the top level catch and the socket is
destroyed. -/
theorem always_ok_counterexample :
    (on_registry_event RegPayload.malformed).ok200 = false := rfl

/-- Claim C9 as amended: the handlers respond 200 OK exactly when no
unhandled error escapes — for every well-formed events array on the
registry endpoint, and on the messaging endpoint for malformed JSON, for
a body without a callback, and for a callback whose message chat chain
is present, whose acknowledgment succeeds, and which is not an approver
callback carrying a data payload that parses to JSON null; but a
malformed registry body, a failing acknowledgment, a callback missing
its message or chat, or an approver callback whose data is the null
literal (the command access then throws on null outside the try of
do_deploy) raises, and the connection is destroyed with no 200. -/
theorem always_ok_amended :
    (∀ evs, (on_registry_event (RegPayload.events evs)).ok200 = true)
    ∧ (∀ (cfg : Config) (ackOk : Bool) (stepOk : Action → Bool) (g : Bool),
        (on_telegram_event cfg TgPayload.parseFail ackOk stepOk g).ok200 = true)
    ∧ (∀ (cfg : Config) (ackOk : Bool) (stepOk : Action → Bool) (g : Bool),
        (on_telegram_event cfg TgPayload.noCallback ackOk stepOk g).ok200 = true)
    ∧ (∀ (cfg : Config) (i d u : JsVal) (stepOk : Action → Bool) (g : Bool),
        (on_telegram_event cfg
          (TgPayload.withCallback ⟨i, d, some ⟨some ⟨u⟩⟩⟩) true stepOk g).ok200
          = !((u == JsVal.str "kurnia_d_win")
              && isNullPayload (jsToDisplay d)))
    ∧ (∀ (cfg : Config) (cb : CallbackQuery) (stepOk : Action → Bool) (g : Bool),
        (on_telegram_event cfg (TgPayload.withCallback cb) false stepOk g).ok200
          = false)
    ∧ (∀ (cfg : Config) (i d : JsVal) (stepOk : Action → Bool) (g : Bool),
        (on_telegram_event cfg
          (TgPayload.withCallback ⟨i, d, none⟩) true stepOk g).ok200 = false)
    ∧ (∀ (cfg : Config) (i d : JsVal) (stepOk : Action → Bool) (g : Bool),
        (on_telegram_event cfg
          (TgPayload.withCallback ⟨i, d, some ⟨none⟩⟩) true stepOk g).ok200
          = false) := by
  refine ⟨fun evs => rfl, fun _ _ _ _ => rfl, fun _ _ _ _ => rfl,
    ?_, ?_, ?_, ?_⟩
  · intro cfg i d u stepOk g
    by_cases hu : u = JsVal.str "kurnia_d_win"
    · by_cases hn : isNullPayload (jsToDisplay d) = true <;>
        simp [on_telegram_event, do_deploy, hu, hn]
    · simp [on_telegram_event, hu]
  · intro cfg cb stepOk g
    simp [on_telegram_event]
  · intro cfg i d stepOk g
    simp [on_telegram_event]
  · intro cfg i d stepOk g
    simp [on_telegram_event]

end MyBot
